import Mathlib

/-!
Verification development for the MaravIA gateway (Go sources).

The definitions below are a shallow embedding of the Go code:
`internal/config/config.go` (configuration loading and the backend
registry), the `proxy` package (routing resolution, the invoker with its
per-agent circuit breakers, the HTTP executor `doHTTP`) and the chat
handler `internal/handler/chat.go`.  Machine integers are modelled as
`Int` (Go `int`), time instants and durations in seconds as `Int`,
fallible code as `Except`.  The circuit breaker library
(github.com/sony/gobreaker) and a few helpers are not part of the
sources and are modelled from the specification; each such definition
says so in its doc comment.
-/

namespace Gateway

/-- Configuration structure from `internal/config/config.go`.  Field
names and order follow the Go struct `Config`. -/
structure Config where
  HTTPPort : Int
  CORSOrigins : String
  LogLevel : String
  ReadHeaderTimeoutSec : Int
  ReadTimeoutSec : Int
  WriteTimeoutSec : Int
  IdleTimeoutSec : Int
  AgentVentaURL : String
  AgentCitaURL : String
  AgentReservaURL : String
  AgentCitasVentasURL : String
  AgentVentaEnabled : Bool
  AgentCitaEnabled : Bool
  AgentReservaEnabled : Bool
  AgentCitasVentasEnabled : Bool
  AgentTimeoutSec : Int
deriving DecidableEq, Repr

/-- `Config.AgentURL` from `config.go`: the backend target URL for the
four known routing keys, `""` for anything else. -/
def Config.AgentURL (c : Config) (agent : String) : String :=
  if agent = "venta" then c.AgentVentaURL
  else if agent = "cita" then c.AgentCitaURL
  else if agent = "reserva" then c.AgentReservaURL
  else if agent = "citas_ventas" then c.AgentCitasVentasURL
  else ""

/-- `Config.AgentEnabled` from `config.go`: the enabled flag for the
four known routing keys, `false` for anything else. -/
def Config.AgentEnabled (c : Config) (agent : String) : Bool :=
  if agent = "venta" then c.AgentVentaEnabled
  else if agent = "cita" then c.AgentCitaEnabled
  else if agent = "reserva" then c.AgentReservaEnabled
  else if agent = "citas_ventas" then c.AgentCitasVentasEnabled
  else false

/-- ASCII whitespace, as trimmed by Go `strings.TrimSpace` (restricted
to the ASCII range, which is all the fixed comparisons need). -/
def goIsSpace (c : Char) : Bool :=
  c = ' ' || c = '\t' || c = '\n' || c = '\x0b' || c = '\x0c' || c = '\r'

/-- Go `strings.TrimSpace` on ASCII: drop leading and trailing
whitespace characters. -/
def goTrimSpace (s : String) : String :=
  ⟨((s.data.dropWhile goIsSpace).reverse.dropWhile goIsSpace).reverse⟩

/-- Go `strings.ToLower` on ASCII: map each upper-case letter to its
lower-case counterpart. -/
def goToLowerChar (c : Char) : Char :=
  if 65 ≤ c.toNat ∧ c.toNat ≤ 90 then Char.ofNat (c.toNat + 32) else c

/-- Lower-casing a whole string, character by character. -/
def goToLower (s : String) : String :=
  ⟨s.data.map goToLowerChar⟩

/-- `ModalidadToAgent` from the proxy package: normalizes the business
modalidad (trim then lowercase) and maps the four fixed values to
routing keys; every other input falls through to the default `"cita"`. -/
def ModalidadToAgent (modalidad : String) : String :=
  let m := goToLower (goTrimSpace modalidad)
  if m = "citas" then "cita"
  else if m = "ventas" then "venta"
  else if m = "reservas" then "reserva"
  else if m = "citas y ventas" then "citas_ventas"
  else "cita"

/-- The fixed list of routing keys, as enumerated in `NewInvoker`. -/
def agentKeys : List String := ["venta", "cita", "reserva", "citas_ventas"]

/-- The decoded payload of a well-formed agent response, Go struct
`AgentResponse` in the proxy package.  The Go field `URL *string` is
`nil` when the JSON field is absent or `null` (`none` here) and points
at the sent string otherwise (`some`). -/
structure AgentResponse where
  Reply : String
  URL : Option String
deriving DecidableEq, Repr

/-- The value produced by a successful `doHTTP` call, Go struct
`agentResult` in the proxy package. -/
structure AgentResult where
  Reply : String
  URL : Option String
deriving DecidableEq, Repr

/-- Circuit-breaker modes.  Modelled from the spec: states of the
per-backend breaker (library github.com/sony/gobreaker, not under the
sources) are Closed, Open and Half-Open. -/
inductive CBMode
  | closed
  | opened
  | halfOpen
deriving DecidableEq, Repr

/-- Per-backend circuit breaker state.  Modelled from the spec: the
breaker (github.com/sony/gobreaker, not under the sources) keeps the
current mode, the consecutive-failure counter, the time of the last
transition to Open, and the number of probes admitted while
Half-Open. -/
structure CBreaker where
  mode : CBMode
  consecutiveFailures : Nat
  openedAt : Int
  halfOpenProbes : Nat
deriving DecidableEq, Repr

/-- The trip condition configured in `NewInvoker`: `ReadyToTrip`
returns true when `counts.ConsecutiveFailures >= 5`. -/
def cbReadyToTrip (consecutiveFailures : Nat) : Bool :=
  consecutiveFailures ≥ 5

/-- The Open cool-down configured in `NewInvoker`: `Timeout: 60 *
time.Second`, in seconds. -/
def cbCooldownSec : Int := 60

/-- The Half-Open probe budget configured in `NewInvoker`:
`MaxRequests: 3`. -/
def cbMaxRequests : Nat := 3

/-- A fresh breaker, as created once per agent in `NewInvoker`:
Closed with zeroed counters. -/
def cbInit : CBreaker := ⟨CBMode.closed, 0, 0, 0⟩

/-- Breaker-level failures of `Execute`.  Modelled from the spec:
rejection while Open (`ErrOpenState`), rejection of excess Half-Open
probes, or pass-through of the guarded operation's own failure. -/
inductive CBError
  | circuitOpen
  | tooManyRequests
  | opFailed (msg : String)
deriving DecidableEq, Repr

/-- Result of one `Execute` call: the returned value or error, the
breaker state afterwards, and whether the guarded operation was
actually invoked. -/
structure ExecOutcome where
  result : Except CBError AgentResult
  breaker : CBreaker
  opInvoked : Bool
deriving Repr

/-- Counter update on a failed guarded call while admitting requests.
Modelled from the spec: each failure increments the consecutive-failure
counter, and when `ReadyToTrip` holds the breaker transitions to Open,
recording the transition time. -/
def CBreaker.onFailure (b : CBreaker) (now : Int) : CBreaker :=
  let n := b.consecutiveFailures + 1
  if cbReadyToTrip n then ⟨CBMode.opened, n, now, 0⟩
  else ⟨CBMode.closed, n, b.openedAt, 0⟩

/-- Modelled from the spec: `Execute` of the per-backend breaker
(github.com/sony/gobreaker, not under the sources), instantiated with
the settings of `NewInvoker`.  Closed: the operation runs; a success
resets the consecutive-failure counter, a failure increments it and
trips to Open at the configured threshold.  Open with cool-down not
elapsed: reject immediately with a circuit-open error, the operation is
not invoked and the state is unchanged.  Open with cool-down elapsed:
admit a Half-Open probe; its success closes the breaker and resets
counters, its failure re-opens it and restarts the cool-down.
Half-Open: admit up to the configured probe budget, reject the rest.
The `op` argument is the outcome the guarded operation would produce
were it invoked. -/
def CBreaker.Execute (b : CBreaker) (now : Int)
    (op : Except String AgentResult) : ExecOutcome :=
  match b.mode with
  | CBMode.closed =>
      match op with
      | Except.error m => ⟨Except.error (CBError.opFailed m), b.onFailure now, true⟩
      | Except.ok a => ⟨Except.ok a, ⟨CBMode.closed, 0, b.openedAt, 0⟩, true⟩
  | CBMode.opened =>
      if now < b.openedAt + cbCooldownSec then
        ⟨Except.error CBError.circuitOpen, b, false⟩
      else
        match op with
        | Except.error m =>
            ⟨Except.error (CBError.opFailed m), ⟨CBMode.opened, b.consecutiveFailures + 1, now, 0⟩, true⟩
        | Except.ok a => ⟨Except.ok a, ⟨CBMode.closed, 0, b.openedAt, 0⟩, true⟩
  | CBMode.halfOpen =>
      if b.halfOpenProbes < cbMaxRequests then
        match op with
        | Except.error m =>
            ⟨Except.error (CBError.opFailed m), ⟨CBMode.opened, b.consecutiveFailures + 1, now, 0⟩, true⟩
        | Except.ok a => ⟨Except.ok a, ⟨CBMode.closed, 0, b.openedAt, 0⟩, true⟩
      else ⟨Except.error CBError.tooManyRequests, b, false⟩

/-- Folding `k` consecutive failing calls through the breaker, all at
the same instant (closed-mode accounting does not read the clock). -/
def applyFailures (now : Int) : Nat → CBreaker → CBreaker
  | 0, b => b
  | Nat.succ k, b =>
      applyFailures now k ((b.Execute now (Except.error "http do: connection refused")).breaker)

/-- The `http.Transport` literal built in `NewInvoker`.  Fields not
set in the Go composite literal take Go's zero value: `MaxConnsPerHost
= 0` (no active-connection cap), `ResponseHeaderTimeoutSec = 0` (no
response-header timeout), and `hasDialTimeout = false` (no custom
dialer, hence no dial timeout distinct from the call timeout). -/
structure GoTransport where
  MaxIdleConns : Nat
  MaxIdleConnsPerHost : Nat
  IdleConnTimeoutSec : Nat
  MaxConnsPerHost : Nat
  ResponseHeaderTimeoutSec : Nat
  hasDialTimeout : Bool
deriving DecidableEq, Repr

/-- The `http.Client` literal built in `NewInvoker`: an end-to-end
timeout of `AgentTimeoutSec` seconds over the shared transport. -/
structure GoHTTPClient where
  TimeoutSec : Int
  transport : GoTransport
deriving DecidableEq, Repr

/-- The `Invoker` struct from the proxy package: the configuration,
the shared HTTP client, and one circuit breaker per agent key (the Go
map is modelled as an association list). -/
structure Invoker where
  cfg : Config
  client : GoHTTPClient
  cbs : List (String × CBreaker)
deriving Repr

/-- Association-list lookup, modelling reading the Go map `inv.cbs`. -/
def lookupCB : List (String × CBreaker) → String → Option CBreaker
  | [], _ => none
  | (k, b) :: rest, a => if k = a then some b else lookupCB rest a

/-- Association-list update, modelling the in-place mutation of the
breaker stored under a key. -/
def updateCB : List (String × CBreaker) → String → CBreaker → List (String × CBreaker)
  | [], _, _ => []
  | (k, b) :: rest, a, b2 =>
      if k = a then (k, b2) :: rest else (k, b) :: updateCB rest a b2

/-- `NewInvoker` from the proxy package: the shared client with its
transport bounds, and a fresh breaker for each of the four agent
keys. -/
def NewInvoker (cfg : Config) : Invoker :=
  { cfg := cfg
    client :=
      { TimeoutSec := cfg.AgentTimeoutSec
        transport :=
          { MaxIdleConns := 50
            MaxIdleConnsPerHost := 10
            IdleConnTimeoutSec := 90
            MaxConnsPerHost := 0
            ResponseHeaderTimeoutSec := 0
            hasDialTimeout := false } }
    cbs := agentKeys.map (fun name => (name, cbInit)) }

/-- A Go context, reduced to the one observable the claims need: its
deadline (absolute time in seconds), `none` when the context never
fires by itself. -/
structure GoContext where
  deadline : Option Int
deriving DecidableEq, Repr

/-- Deadline semantics of `context.WithTimeout(parent, d)` as the spec
states them: the derived context fires at `min(caller-deadline, now +
timeout)` (when the parent has no deadline, at `now + timeout`). -/
def withTimeout (parent : GoContext) (now durSec : Int) : GoContext :=
  { deadline :=
      some (match parent.deadline with
            | none => now + durSec
            | some d => min d (now + durSec)) }

/-- Modelled from the spec: `Invoker.AgentTimeout` is called by the
chat handler but its definition is not under the sources; per the spec
it is the configured per-call agent-timeout duration
(`AgentTimeoutSec` seconds). -/
def Invoker.AgentTimeout (inv : Invoker) : Int :=
  inv.cfg.AgentTimeoutSec

/-- What the network returns to `doHTTP` for one request: either
`client.Do` fails (dial error, timeout, …) with a message, or a
response arrives with a status code and a body that either decodes to
an `AgentResponse` (`some`) or is malformed (`none`). -/
inductive HTTPResult
  | netErr (msg : String)
  | resp (status : Nat) (body : Option AgentResponse)
deriving DecidableEq, Repr

/-- Operations performed on a received response body, in order.  The
Go code in `doHTTP` reads the body through the JSON decoder on the
success path and closes it via `defer resp.Body.Close()`; it contains
no drain-to-EOF (`io.Copy(io.Discard, …)`) step, so `drainToEnd` is an
action the embedding can express but the code never emits. -/
inductive BodyAction
  | readBody
  | drainToEnd
  | close
deriving DecidableEq, Repr

/-- `doHTTP` from the proxy package, from the point the network
outcome is known (marshalling the request body cannot fail for decoded
JSON input).  On a transport error there is no body.  On a non-200
status the function returns a status error and the deferred close runs.
On a 200 status the body is fed to the JSON decoder: a malformed body
yields a decode error, a well-formed one yields `agentResult` with the
URL normalized to `nil` when the backend sent the empty string. -/
def doHTTP : HTTPResult → Except String AgentResult × List BodyAction
  | HTTPResult.netErr m => (Except.error ("http do: " ++ m), [])
  | HTTPResult.resp status body =>
      if status ≠ 200 then
        (Except.error ("agent returned status " ++ toString status), [BodyAction.close])
      else
        match body with
        | none => (Except.error "decode response", [BodyAction.readBody, BodyAction.close])
        | some out =>
            let url := if out.URL = some "" then none else out.URL
            (Except.ok ⟨out.Reply, url⟩, [BodyAction.readBody, BodyAction.close])

/-- The distinct failures `InvokeAgent` can return, one constructor
per `fmt.Errorf` site plus the breaker's own rejections. -/
inductive InvokeError
  | disabled (agent : String)
  | noURL (agent : String)
  | unknownAgent (agent : String)
  | circuitOpen
  | tooManyRequests
  | opFailed (msg : String)
deriving DecidableEq, Repr

/-- Lifting a breaker-level outcome into `InvokeAgent`'s error type
(the Go code returns the breaker's error value unchanged). -/
def mapCBResult : Except CBError AgentResult → Except InvokeError AgentResult
  | Except.ok a => Except.ok a
  | Except.error CBError.circuitOpen => Except.error InvokeError.circuitOpen
  | Except.error CBError.tooManyRequests => Except.error InvokeError.tooManyRequests
  | Except.error (CBError.opFailed m) => Except.error (InvokeError.opFailed m)

/-- Result of one `InvokeAgent` call: the returned value or error, the
invoker afterwards (its breaker map may have changed), the context the
guarded HTTP call received (`none` when the call was never made), and
the body operations the HTTP call performed. -/
structure InvokeOutcome where
  result : Except InvokeError AgentResult
  invoker : Invoker
  opCtx : Option GoContext
  bodyActions : List BodyAction
deriving Repr

/-- `InvokeAgent` from the proxy package: reject a disabled agent,
then an agent without a configured URL, then an agent key absent from
the breaker map; otherwise run `doHTTP` under the agent's breaker.
The network is abstracted as a function from the context handed to the
guarded operation to the raw HTTP outcome. -/
def Invoker.InvokeAgent (inv : Invoker) (now : Int) (ctx : GoContext)
    (agent : String) (net : GoContext → HTTPResult) : InvokeOutcome :=
  if inv.cfg.AgentEnabled agent = false then
    ⟨Except.error (InvokeError.disabled agent), inv, none, []⟩
  else if inv.cfg.AgentURL agent = "" then
    ⟨Except.error (InvokeError.noURL agent), inv, none, []⟩
  else
    match lookupCB inv.cbs agent with
    | none => ⟨Except.error (InvokeError.unknownAgent agent), inv, none, []⟩
    | some cb =>
        let httpOut := doHTTP (net ctx)
        let eo := cb.Execute now httpOut.1
        { result := mapCBResult eo.result
          invoker := { inv with cbs := updateCB inv.cbs agent eo.breaker }
          opCtx := if eo.opInvoked then some ctx else none
          bodyActions := if eo.opInvoked then httpOut.2 else [] }

/-- A process environment: `some` for a variable that is set (possibly
to the empty string), `none` for an unset one, as distinguished by
`os.LookupEnv`. -/
def Env : Type := String → Option String

/-- `os.Getenv`: the set value, or the empty string when unset. -/
def getenv (e : Env) (key : String) : String :=
  (e key).getD ""

/-- Go `strconv.ParseBool`, used by the env reader for `bool` fields:
exactly these twelve literals parse, everything else is an error. -/
def strconvParseBool (s : String) : Option Bool :=
  if s = "1" ∨ s = "t" ∨ s = "T" ∨ s = "TRUE" ∨ s = "true" ∨ s = "True" then some true
  else if s = "0" ∨ s = "f" ∨ s = "F" ∨ s = "FALSE" ∨ s = "false" ∨ s = "False" then some false
  else none

/-- Value of one decimal digit character. -/
def digitVal (c : Char) : Option Nat :=
  if 48 ≤ c.toNat ∧ c.toNat ≤ 57 then some (c.toNat - 48) else none

/-- Accumulating decimal evaluation of a digit run; any non-digit
fails. -/
def digitsValAux : List Char → Nat → Option Nat
  | [], acc => some acc
  | c :: rest, acc =>
      match digitVal c with
      | none => none
      | some d => digitsValAux rest (acc * 10 + d)

/-- A non-empty all-digit run evaluated as a natural number. -/
def digitsVal : List Char → Option Nat
  | [] => none
  | c :: rest => digitsValAux (c :: rest) 0

/-- Go `strconv.Atoi`: an optional sign followed by at least one
decimal digit (machine overflow aside, which none of the claims
reach). -/
def goAtoi (s : String) : Option Int :=
  match s.data with
  | '-' :: rest => (digitsVal rest).map (fun n => -(n : Int))
  | '+' :: rest => (digitsVal rest).map (fun n => (n : Int))
  | l => (digitsVal l).map (fun n => (n : Int))

/-- Reading one integer-valued variable as the env reader does: the
tag default when unset, `strconv.Atoi` otherwise, failing the whole
load on a malformed value. -/
def readIntVar (e : Env) (key : String) (dflt : Int) : Except String Int :=
  match e key with
  | none => Except.ok dflt
  | some s =>
      match goAtoi s with
      | some v => Except.ok v
      | none => Except.error ("config: parsing " ++ key)

/-- Reading one string-valued variable: the tag default when unset,
the raw value otherwise. -/
def readStrVar (e : Env) (key : String) (dflt : String) : String :=
  match e key with
  | none => dflt
  | some s => s

/-- Reading one bool-valued variable as the env reader does, via
`strconv.ParseBool`. -/
def readBoolVar (e : Env) (key : String) (dflt : Bool) : Except String Bool :=
  match e key with
  | none => Except.ok dflt
  | some s =>
      match strconvParseBool s with
      | some b => Except.ok b
      | none => Except.error ("config: parsing " ++ key)

/-- `parseBoolEnv` from `config.go`: re-parse an enabled flag from the
raw environment value, accepting "1"/"true"/"yes" and "0"/"false"/"no"
after trim+lowercase, falling back to `strconv.ParseBool` whose result
is used even on error (Go discards the error, leaving the zero value
`false`). -/
def parseBoolEnv (e : Env) (key : String) (defaultVal : Bool) : Bool :=
  let v := getenv e key
  if v = "" then defaultVal
  else
    let v := goToLower (goTrimSpace v)
    if v = "1" ∨ v = "true" ∨ v = "yes" then true
    else if v = "0" ∨ v = "false" ∨ v = "no" then false
    else (strconvParseBool v).getD false

/-- `Load` from `config.go`: read every field from the environment
with its tag default, then overwrite the four enabled flags through
`parseBoolEnv`.  No relation between the timeout fields is checked
anywhere: the only failure mode is a malformed individual value. -/
def Load (e : Env) : Except String Config := do
  let httpPort ← readIntVar e "GATEWAY_HTTP_PORT" 8000
  let rht ← readIntVar e "GATEWAY_READ_HEADER_TIMEOUT_SEC" 10
  let rt ← readIntVar e "GATEWAY_READ_TIMEOUT_SEC" 30
  let wt ← readIntVar e "GATEWAY_WRITE_TIMEOUT_SEC" 30
  let it ← readIntVar e "GATEWAY_IDLE_TIMEOUT_SEC" 60
  let ventaEnabled ← readBoolVar e "AGENT_VENTA_ENABLED" true
  let citaEnabled ← readBoolVar e "AGENT_CITA_ENABLED" true
  let reservaEnabled ← readBoolVar e "AGENT_RESERVA_ENABLED" true
  let citasVentasEnabled ← readBoolVar e "AGENT_CITAS_VENTAS_ENABLED" true
  let agentTimeout ← readIntVar e "AGENT_TIMEOUT" 30
  let c : Config :=
    { HTTPPort := httpPort
      CORSOrigins := readStrVar e "CORS_ALLOWED_ORIGINS" "*"
      LogLevel := readStrVar e "LOG_LEVEL" "info"
      ReadHeaderTimeoutSec := rht
      ReadTimeoutSec := rt
      WriteTimeoutSec := wt
      IdleTimeoutSec := it
      AgentVentaURL := readStrVar e "AGENT_VENTA_URL" "http://localhost:8001/api/chat"
      AgentCitaURL := readStrVar e "AGENT_CITA_URL" "http://localhost:8002/api/chat"
      AgentReservaURL := readStrVar e "AGENT_RESERVA_URL" "http://localhost:8003/api/chat"
      AgentCitasVentasURL := readStrVar e "AGENT_CITAS_VENTAS_URL" "http://localhost:8004/api/chat"
      AgentVentaEnabled := ventaEnabled
      AgentCitaEnabled := citaEnabled
      AgentReservaEnabled := reservaEnabled
      AgentCitasVentasEnabled := citasVentasEnabled
      AgentTimeoutSec := agentTimeout }
  Except.ok
    { c with
      AgentVentaEnabled := parseBoolEnv e "AGENT_VENTA_ENABLED" c.AgentVentaEnabled
      AgentCitaEnabled := parseBoolEnv e "AGENT_CITA_ENABLED" c.AgentCitaEnabled
      AgentReservaEnabled := parseBoolEnv e "AGENT_RESERVA_ENABLED" c.AgentReservaEnabled
      AgentCitasVentasEnabled := parseBoolEnv e "AGENT_CITAS_VENTAS_ENABLED" c.AgentCitasVentasEnabled }

/-- The environment with no gateway variable set. -/
def emptyEnv : Env := fun _ => none

/-- The configuration produced by `Load` when nothing is set: every
field at its `env-default` tag value. -/
def defaultConfig : Config :=
  { HTTPPort := 8000
    CORSOrigins := "*"
    LogLevel := "info"
    ReadHeaderTimeoutSec := 10
    ReadTimeoutSec := 30
    WriteTimeoutSec := 30
    IdleTimeoutSec := 60
    AgentVentaURL := "http://localhost:8001/api/chat"
    AgentCitaURL := "http://localhost:8002/api/chat"
    AgentReservaURL := "http://localhost:8003/api/chat"
    AgentCitasVentasURL := "http://localhost:8004/api/chat"
    AgentVentaEnabled := true
    AgentCitaEnabled := true
    AgentReservaEnabled := true
    AgentCitasVentasEnabled := true
    AgentTimeoutSec := 30 }

/-- `main` from `cmd/gateway/main.go` exits with status 1 exactly when
`Load` fails; on success it proceeds to serve. -/
def mainStarts : Except String Config → Bool
  | Except.ok _ => true
  | Except.error _ => false

/-- The `config` object inside a chat request, restricted to the
fields the handler control flow reads. -/
structure ChatConfig where
  Modalidad : String
  IdEmpresa : Int
deriving DecidableEq, Repr

/-- A decoded chat request, restricted to the fields the handler
control flow reads. -/
structure ChatRequest where
  Message : String
  SessionID : Int
  Config : ChatConfig
deriving DecidableEq, Repr

/-- Outcome of decoding the request body under the 512 KB
`MaxBytesReader` limit. -/
inductive DecodeOutcome
  | tooLarge
  | badJSON
  | decoded (req : ChatRequest)
deriving DecidableEq, Repr

/-- The fallback reply the handler returns when `InvokeAgent` fails. -/
def fallbackReply : String :=
  "No pude conectar con el agente. Intenta de nuevo en un momento."

/-- What one `ServeHTTP` call did: HTTP status written, the derived
context handed to `InvokeAgent` (`none` when the call never got
there), whether the context's `cancel` function ran (the Go code
installs it with `defer` immediately after creating the context), the
invoker afterwards, and the reply/URL written to the caller. -/
structure ServeOutcome where
  status : Nat
  ctxPassed : Option GoContext
  cancelCalled : Bool
  invoker : Invoker
  replyOut : Option String
  urlOut : Option String
deriving Repr

/-- `ChatHandler.ServeHTTP` from `internal/handler/chat.go`: method
check, decode, the three validations, then routing resolution, the
derived per-call context (`context.WithTimeout(r.Context(),
h.Invoker.AgentTimeout())` with `defer cancel()`), the invocation, and
the response — a 200 with the fallback text on invocation failure, a
200 with the agent's reply and URL on success. -/
def ServeHTTP (inv : Invoker) (now : Int) (callerCtx : GoContext)
    (method : String) (dec : DecodeOutcome)
    (net : GoContext → HTTPResult) : ServeOutcome :=
  if method ≠ "POST" then ⟨405, none, false, inv, none, none⟩
  else
    match dec with
    | DecodeOutcome.tooLarge => ⟨413, none, false, inv, none, none⟩
    | DecodeOutcome.badJSON => ⟨400, none, false, inv, none, none⟩
    | DecodeOutcome.decoded req =>
        if goTrimSpace req.Message = "" then ⟨400, none, false, inv, none, none⟩
        else if req.SessionID < 0 then ⟨400, none, false, inv, none, none⟩
        else if req.Config.IdEmpresa ≤ 0 then ⟨400, none, false, inv, none, none⟩
        else
          let agent := ModalidadToAgent req.Config.Modalidad
          let agentCtx := withTimeout callerCtx now inv.AgentTimeout
          let r := inv.InvokeAgent now agentCtx agent net
          match r.result with
          | Except.error _ =>
              ⟨200, some agentCtx, true, r.invoker, some fallbackReply, none⟩
          | Except.ok res =>
              ⟨200, some agentCtx, true, r.invoker, some res.Reply, res.URL⟩

/-- Spec-side predicate, written from the spec's words for the
refinement claim about timeout ordering: "agent-timeout + safety
margin < server write-timeout < server read-timeout ≤ idle-timeout"
(a positive safety margin makes the first conjunct at least
agent-timeout < write-timeout; the dial and response-header timeouts
of the second chain have no corresponding configuration fields at
all). -/
def specTimeoutOrdering (c : Config) : Prop :=
  c.AgentTimeoutSec < c.WriteTimeoutSec
  ∧ c.WriteTimeoutSec < c.ReadTimeoutSec
  ∧ c.ReadTimeoutSec ≤ c.IdleTimeoutSec

/-- Spec-side predicate, written from the spec's words for the
refinement claim about the shared transport: idle bounds plus a hard
cap on simultaneously active connections per host, a dial timeout
distinct from the end-to-end call timeout, and a response-header
timeout distinct from the full-body timeout. -/
def specTransportBounds (t : GoTransport) : Prop :=
  0 < t.MaxIdleConns ∧ 0 < t.MaxIdleConnsPerHost
  ∧ 0 < t.MaxConnsPerHost
  ∧ t.hasDialTimeout = true
  ∧ 0 < t.ResponseHeaderTimeoutSec

/-- Spec-side predicate for the drain requirement: on a failure path
after the request was sent, the body operations must include reading
the body to its end before the connection is released. -/
def specBodyDrained (acts : List BodyAction) : Prop :=
  BodyAction.drainToEnd ∈ acts

/-- The breaker pass-through never fabricates an unknown-agent
failure. -/
theorem mapCBResult_ne_unknown (r : Except CBError AgentResult) (s : String) :
    mapCBResult r ≠ Except.error (InvokeError.unknownAgent s) := by
  cases r with
  | ok a => simp [mapCBResult]
  | error e => cases e <;> simp [mapCBResult]

/-- When the agent key is present in the breaker map, `InvokeAgent`
never takes the unknown-agent branch. -/
theorem invoke_no_unknown (inv : Invoker) (now : Int) (ctx : GoContext)
    (agent : String) (net : GoContext → HTTPResult) (cb : CBreaker)
    (h : lookupCB inv.cbs agent = some cb) :
    ∀ s, (inv.InvokeAgent now ctx agent net).result
          ≠ Except.error (InvokeError.unknownAgent s) := by
  intro s
  unfold Invoker.InvokeAgent
  by_cases he : inv.cfg.AgentEnabled agent = false
  · simp [he]
  · by_cases hu : inv.cfg.AgentURL agent = ""
    · simp [he, hu]
    · simp only [he, hu, if_false, if_neg, ite_false]
      rw [h]
      simp [mapCBResult_ne_unknown]

/-- Claim C8: for every routing key outside the four known backend
keys, the registry reports the backend as disabled and returns an
empty target URL; for the known keys it returns the configured enabled
flag and URL. -/
theorem c8_registry_lookup (c : Config) (agent : String)
    (h : agent ∉ agentKeys) :
    c.AgentEnabled agent = false ∧ c.AgentURL agent = ""
    ∧ c.AgentEnabled "venta" = c.AgentVentaEnabled
    ∧ c.AgentURL "venta" = c.AgentVentaURL
    ∧ c.AgentEnabled "cita" = c.AgentCitaEnabled
    ∧ c.AgentURL "cita" = c.AgentCitaURL
    ∧ c.AgentEnabled "reserva" = c.AgentReservaEnabled
    ∧ c.AgentURL "reserva" = c.AgentReservaURL
    ∧ c.AgentEnabled "citas_ventas" = c.AgentCitasVentasEnabled
    ∧ c.AgentURL "citas_ventas" = c.AgentCitasVentasURL := by
  simp only [agentKeys, List.mem_cons, List.not_mem_nil, or_false, not_or] at h
  obtain ⟨h1, h2, h3, h4⟩ := h
  refine ⟨?_, ?_, rfl, rfl, rfl, rfl, rfl, rfl, rfl, rfl⟩
  · simp [Config.AgentEnabled, h1, h2, h3, h4]
  · simp [Config.AgentURL, h1, h2, h3, h4]

/-- Witness for C8 at the unknown key "orquestador" and the default
configuration. -/
theorem c8_registry_lookup_witness :
    defaultConfig.AgentEnabled "orquestador" = false
    ∧ defaultConfig.AgentURL "orquestador" = ""
    ∧ defaultConfig.AgentEnabled "venta" = defaultConfig.AgentVentaEnabled
    ∧ defaultConfig.AgentURL "venta" = defaultConfig.AgentVentaURL
    ∧ defaultConfig.AgentEnabled "cita" = defaultConfig.AgentCitaEnabled
    ∧ defaultConfig.AgentURL "cita" = defaultConfig.AgentCitaURL
    ∧ defaultConfig.AgentEnabled "reserva" = defaultConfig.AgentReservaEnabled
    ∧ defaultConfig.AgentURL "reserva" = defaultConfig.AgentReservaURL
    ∧ defaultConfig.AgentEnabled "citas_ventas" = defaultConfig.AgentCitasVentasEnabled
    ∧ defaultConfig.AgentURL "citas_ventas" = defaultConfig.AgentCitasVentasURL :=
  c8_registry_lookup defaultConfig "orquestador" (by decide)

/-- Claim C2, counterexample: the routing key "modalidad desconocida"
is not in the enumeration, yet routing resolution silently returns the
default backend key "cita" — and the full invocation then succeeds
against the cita backend — instead of producing any unknown-backend
failure. -/
theorem c2_counterexample :
    ModalidadToAgent "modalidad desconocida" = "cita"
    ∧ ((NewInvoker defaultConfig).InvokeAgent 0 ⟨none⟩
          (ModalidadToAgent "modalidad desconocida")
          (fun _ => HTTPResult.resp 200 (some ⟨"hola", none⟩))).result
        = Except.ok ⟨"hola", none⟩ :=
  ⟨by decide, rfl⟩

/-- Claim C2 as amended: for every routing key whose normalized form
is not one of the four fixed modalidad values, `ModalidadToAgent`
silently returns the default backend key "cita"; no unknown-backend
failure arises from routing resolution. -/
theorem c2_amended_silent_default (modalidad : String)
    (h : goToLower (goTrimSpace modalidad)
          ∉ (["citas", "ventas", "reservas", "citas y ventas"] : List String)) :
    ModalidadToAgent modalidad = "cita" := by
  simp only [List.mem_cons, List.not_mem_nil, or_false, not_or] at h
  obtain ⟨h1, h2, h3, h4⟩ := h
  simp [ModalidadToAgent, h1, h2, h3, h4]

/-- Witness for the amended C2 at the unknown key "whatsapp". -/
theorem c2_amended_silent_default_witness :
    ModalidadToAgent "whatsapp" = "cita" :=
  c2_amended_silent_default "whatsapp" (by decide)

/-- Claim C10: routing resolution always lands in the four known keys,
`NewInvoker` creates one breaker per key, and hence the unknown-agent
branch of `InvokeAgent` is unreachable when the agent argument came
from `ModalidadToAgent`. -/
theorem c10_closed_routing (cfg : Config) (m : String) (now : Int) (ctx : GoContext)
    (net : GoContext → HTTPResult) :
    ModalidadToAgent m ∈ agentKeys
    ∧ lookupCB (NewInvoker cfg).cbs "venta" = some cbInit
    ∧ lookupCB (NewInvoker cfg).cbs "cita" = some cbInit
    ∧ lookupCB (NewInvoker cfg).cbs "reserva" = some cbInit
    ∧ lookupCB (NewInvoker cfg).cbs "citas_ventas" = some cbInit
    ∧ ∀ s, ((NewInvoker cfg).InvokeAgent now ctx (ModalidadToAgent m) net).result
            ≠ Except.error (InvokeError.unknownAgent s) := by
  have hlook : lookupCB (NewInvoker cfg).cbs (ModalidadToAgent m) = some cbInit := by
    simp only [ModalidadToAgent]
    split_ifs <;> rfl
  refine ⟨?_, rfl, rfl, rfl, rfl,
    invoke_no_unknown (NewInvoker cfg) now ctx (ModalidadToAgent m) net cbInit hlook⟩
  simp only [ModalidadToAgent]
  split_ifs <;> decide

/-- Witness for C10 at the modalidad "reservas" and a concrete
invocation. -/
theorem c10_closed_routing_witness :
    ModalidadToAgent "reservas" ∈ agentKeys
    ∧ lookupCB (NewInvoker defaultConfig).cbs "venta" = some cbInit
    ∧ lookupCB (NewInvoker defaultConfig).cbs "cita" = some cbInit
    ∧ lookupCB (NewInvoker defaultConfig).cbs "reserva" = some cbInit
    ∧ lookupCB (NewInvoker defaultConfig).cbs "citas_ventas" = some cbInit
    ∧ ((NewInvoker defaultConfig).InvokeAgent 0 ⟨none⟩ (ModalidadToAgent "reservas")
        (fun _ => HTTPResult.netErr "refused")).result
      ≠ Except.error (InvokeError.unknownAgent "reserva") :=
  have h := c10_closed_routing defaultConfig "reservas" 0 ⟨none⟩
    (fun _ => HTTPResult.netErr "refused")
  ⟨h.1, h.2.1, h.2.2.1, h.2.2.2.1, h.2.2.2.2.1, h.2.2.2.2.2 "reserva"⟩

/-- Claim C9: a disabled agent, or one without a configured URL, makes
`InvokeAgent` fail before the breaker is consulted: the guarded call
never runs and every breaker is exactly as before. -/
theorem c9_disabled_frame (inv : Invoker) (now : Int) (ctx : GoContext)
    (agent : String) (net : GoContext → HTTPResult)
    (h : inv.cfg.AgentEnabled agent = false ∨ inv.cfg.AgentURL agent = "") :
    ((inv.InvokeAgent now ctx agent net).result = Except.error (InvokeError.disabled agent)
      ∨ (inv.InvokeAgent now ctx agent net).result = Except.error (InvokeError.noURL agent))
    ∧ (inv.InvokeAgent now ctx agent net).invoker = inv
    ∧ (inv.InvokeAgent now ctx agent net).opCtx = none
    ∧ (inv.InvokeAgent now ctx agent net).bodyActions = [] := by
  unfold Invoker.InvokeAgent
  rcases h with h | h
  · simp [h]
  · by_cases he : inv.cfg.AgentEnabled agent = false
    · simp [he]
    · simp [he, h]

/-- Witness for C9: the cita agent disabled by configuration, at a
concrete call. -/
theorem c9_disabled_frame_witness :
    (((NewInvoker { defaultConfig with AgentCitaEnabled := false }).InvokeAgent 0 ⟨none⟩ "cita"
        (fun _ => HTTPResult.netErr "refused")).result
       = Except.error (InvokeError.disabled "cita")
      ∨ ((NewInvoker { defaultConfig with AgentCitaEnabled := false }).InvokeAgent 0 ⟨none⟩ "cita"
          (fun _ => HTTPResult.netErr "refused")).result
        = Except.error (InvokeError.noURL "cita"))
    ∧ ((NewInvoker { defaultConfig with AgentCitaEnabled := false }).InvokeAgent 0 ⟨none⟩ "cita"
        (fun _ => HTTPResult.netErr "refused")).invoker
      = NewInvoker { defaultConfig with AgentCitaEnabled := false }
    ∧ ((NewInvoker { defaultConfig with AgentCitaEnabled := false }).InvokeAgent 0 ⟨none⟩ "cita"
        (fun _ => HTTPResult.netErr "refused")).opCtx = none
    ∧ ((NewInvoker { defaultConfig with AgentCitaEnabled := false }).InvokeAgent 0 ⟨none⟩ "cita"
        (fun _ => HTTPResult.netErr "refused")).bodyActions = [] :=
  c9_disabled_frame (NewInvoker { defaultConfig with AgentCitaEnabled := false })
    0 ⟨none⟩ "cita" (fun _ => HTTPResult.netErr "refused") (Or.inl (by decide))

/-- Claim C5, counterexample: the transport `NewInvoker` builds does
not satisfy the spec's bounds — it has no cap on simultaneously active
connections per host, no dial timeout, and no response-header
timeout. -/
theorem c5_counterexample :
    ¬ specTransportBounds (NewInvoker defaultConfig).client.transport := by
  unfold specTransportBounds NewInvoker
  decide

/-- Claim C5 as amended: the single shared transport is configured
with idle-connection bounds only (50 idle total, 10 idle per host,
90 s idle timeout); the active-connection cap, dial timeout and
response-header timeout are left at their Go zero values, and the only
call timeout is the client-wide end-to-end timeout of
`AgentTimeoutSec` seconds. -/
theorem c5_amended_transport (cfg : Config) :
    (NewInvoker cfg).client.transport
      = ⟨50, 10, 90, 0, 0, false⟩
    ∧ (NewInvoker cfg).client.TimeoutSec = cfg.AgentTimeoutSec := ⟨rfl, rfl⟩

/-- Claim C6, counterexample: on the non-success-status failure path
(status 502) the executor performs only the deferred close on the
response body; it is not drained to end before the connection is
released. -/
theorem c6_counterexample :
    (doHTTP (HTTPResult.resp 502 none)).1 = Except.error "agent returned status 502"
    ∧ (doHTTP (HTTPResult.resp 502 none)).2 = [BodyAction.close]
    ∧ ¬ specBodyDrained (doHTTP (HTTPResult.resp 502 none)).2 := by
  refine ⟨rfl, rfl, ?_⟩
  unfold specBodyDrained
  decide

/-- Claim C6 as amended: no execution of `doHTTP` ever drains the
response body to its end; on a non-success status the body sees only
the deferred close, and on a decode failure only the decoder's read
followed by the deferred close. -/
theorem c6_amended_no_drain (r : HTTPResult) (status : Nat)
    (body : Option AgentResponse) (h : status ≠ 200) :
    ¬ specBodyDrained (doHTTP r).2
    ∧ (doHTTP (HTTPResult.resp status body)).2 = [BodyAction.close]
    ∧ (doHTTP (HTTPResult.resp 200 none)).2 = [BodyAction.readBody, BodyAction.close] := by
  refine ⟨?_, ?_, rfl⟩
  · unfold specBodyDrained
    cases r with
    | netErr m => simp [doHTTP]
    | resp st b =>
        by_cases hst : st = 200
        · subst hst
          cases b <;> simp [doHTTP]
        · simp [doHTTP, hst]
  · simp [doHTTP, h]

/-- Witness for the amended C6 at a concrete 404 response. -/
theorem c6_amended_no_drain_witness :
    ¬ specBodyDrained (doHTTP (HTTPResult.resp 404 none)).2
    ∧ (doHTTP (HTTPResult.resp 404 none)).2 = [BodyAction.close]
    ∧ (doHTTP (HTTPResult.resp 200 none)).2 = [BodyAction.readBody, BodyAction.close] :=
  c6_amended_no_drain (HTTPResult.resp 404 none) 404 none (by decide)

/-- The integer-valued environment variables `Load` reads. -/
def cfgIntVars : List String :=
  ["GATEWAY_HTTP_PORT", "GATEWAY_READ_HEADER_TIMEOUT_SEC", "GATEWAY_READ_TIMEOUT_SEC",
   "GATEWAY_WRITE_TIMEOUT_SEC", "GATEWAY_IDLE_TIMEOUT_SEC", "AGENT_TIMEOUT"]

/-- The bool-valued environment variables `Load` reads. -/
def cfgBoolVars : List String :=
  ["AGENT_VENTA_ENABLED", "AGENT_CITA_ENABLED", "AGENT_RESERVA_ENABLED",
   "AGENT_CITAS_VENTAS_ENABLED"]

/-- Reading an integer variable succeeds whenever the set value (if
any) parses. -/
theorem readIntVar_isOk (e : Env) (k : String) (d : Int)
    (h : ∀ s, e k = some s → (goAtoi s).isSome = true) :
    ∃ v, readIntVar e k d = Except.ok v := by
  unfold readIntVar
  cases he : e k with
  | none => exact ⟨d, rfl⟩
  | some s =>
      have hs := h s he
      cases hp : goAtoi s with
      | none => rw [hp] at hs; simp at hs
      | some v => exact ⟨v, by simp [hp]⟩

/-- Reading a bool variable succeeds whenever the set value (if any)
parses. -/
theorem readBoolVar_isOk (e : Env) (k : String) (d : Bool)
    (h : ∀ s, e k = some s → (strconvParseBool s).isSome = true) :
    ∃ v, readBoolVar e k d = Except.ok v := by
  unfold readBoolVar
  cases he : e k with
  | none => exact ⟨d, rfl⟩
  | some s =>
      have hs := h s he
      cases hp : strconvParseBool s with
      | none => rw [hp] at hs; simp at hs
      | some v => exact ⟨v, by simp [hp]⟩

/-- Claim C3, counterexample: the default configuration itself
violates the spec's timeout ordering (write-timeout = read-timeout =
agent-timeout = 30 s), yet `Load` succeeds on it and the process
starts normally instead of refusing with a diagnostic. -/
theorem c3_counterexample :
    ¬ specTimeoutOrdering defaultConfig
    ∧ Load emptyEnv = Except.ok defaultConfig
    ∧ mainStarts (Load emptyEnv) = true := by
  refine ⟨?_, rfl, rfl⟩
  unfold specTimeoutOrdering
  decide

/-- Claim C3 as amended: configuration loading performs no
timeout-ordering validation at all — `Load` succeeds whenever each
individually set variable parses, whatever the timeout values are, and
only then does the process start; no ordering between the timeouts is
ever checked. -/
theorem c3_amended_no_validation (e : Env)
    (hi : ∀ k s, k ∈ cfgIntVars → e k = some s → (goAtoi s).isSome = true)
    (hb : ∀ k s, k ∈ cfgBoolVars → e k = some s → (strconvParseBool s).isSome = true) :
    ∃ c, Load e = Except.ok c ∧ mainStarts (Load e) = true := by
  obtain ⟨v1, h1⟩ := readIntVar_isOk e "GATEWAY_HTTP_PORT" 8000
    (fun s hs => hi _ s (by simp [cfgIntVars]) hs)
  obtain ⟨v2, h2⟩ := readIntVar_isOk e "GATEWAY_READ_HEADER_TIMEOUT_SEC" 10
    (fun s hs => hi _ s (by simp [cfgIntVars]) hs)
  obtain ⟨v3, h3⟩ := readIntVar_isOk e "GATEWAY_READ_TIMEOUT_SEC" 30
    (fun s hs => hi _ s (by simp [cfgIntVars]) hs)
  obtain ⟨v4, h4⟩ := readIntVar_isOk e "GATEWAY_WRITE_TIMEOUT_SEC" 30
    (fun s hs => hi _ s (by simp [cfgIntVars]) hs)
  obtain ⟨v5, h5⟩ := readIntVar_isOk e "GATEWAY_IDLE_TIMEOUT_SEC" 60
    (fun s hs => hi _ s (by simp [cfgIntVars]) hs)
  obtain ⟨v6, h6⟩ := readIntVar_isOk e "AGENT_TIMEOUT" 30
    (fun s hs => hi _ s (by simp [cfgIntVars]) hs)
  obtain ⟨b1, hb1⟩ := readBoolVar_isOk e "AGENT_VENTA_ENABLED" true
    (fun s hs => hb _ s (by simp [cfgBoolVars]) hs)
  obtain ⟨b2, hb2⟩ := readBoolVar_isOk e "AGENT_CITA_ENABLED" true
    (fun s hs => hb _ s (by simp [cfgBoolVars]) hs)
  obtain ⟨b3, hb3⟩ := readBoolVar_isOk e "AGENT_RESERVA_ENABLED" true
    (fun s hs => hb _ s (by simp [cfgBoolVars]) hs)
  obtain ⟨b4, hb4⟩ := readBoolVar_isOk e "AGENT_CITAS_VENTAS_ENABLED" true
    (fun s hs => hb _ s (by simp [cfgBoolVars]) hs)
  have hload : Load e = Except.ok
      { HTTPPort := v1
        CORSOrigins := readStrVar e "CORS_ALLOWED_ORIGINS" "*"
        LogLevel := readStrVar e "LOG_LEVEL" "info"
        ReadHeaderTimeoutSec := v2
        ReadTimeoutSec := v3
        WriteTimeoutSec := v4
        IdleTimeoutSec := v5
        AgentVentaURL := readStrVar e "AGENT_VENTA_URL" "http://localhost:8001/api/chat"
        AgentCitaURL := readStrVar e "AGENT_CITA_URL" "http://localhost:8002/api/chat"
        AgentReservaURL := readStrVar e "AGENT_RESERVA_URL" "http://localhost:8003/api/chat"
        AgentCitasVentasURL := readStrVar e "AGENT_CITAS_VENTAS_URL" "http://localhost:8004/api/chat"
        AgentVentaEnabled := parseBoolEnv e "AGENT_VENTA_ENABLED" b1
        AgentCitaEnabled := parseBoolEnv e "AGENT_CITA_ENABLED" b2
        AgentReservaEnabled := parseBoolEnv e "AGENT_RESERVA_ENABLED" b3
        AgentCitasVentasEnabled := parseBoolEnv e "AGENT_CITAS_VENTAS_ENABLED" b4
        AgentTimeoutSec := v6 } := by
    unfold Load
    rw [h1, h2, h3, h4, h5, hb1, hb2, hb3, hb4, h6]
    rfl
  exact ⟨_, hload, by rw [hload]; rfl⟩

/-- Witness for the amended C3: an environment whose write-timeout
vastly exceeds its read-timeout (120 > 5, violating the claimed
ordering) still loads successfully. -/
theorem c3_amended_no_validation_witness :
    mainStarts (Load (fun k =>
        if k = "GATEWAY_WRITE_TIMEOUT_SEC" then some "120"
        else if k = "GATEWAY_READ_TIMEOUT_SEC" then some "5"
        else none)) = true := by
  refine (c3_amended_no_validation _ ?_ ?_).choose_spec.2
  · intro k s hk hs
    simp only [cfgIntVars, List.mem_cons, List.not_mem_nil, or_false] at hk
    rcases hk with h | h | h | h | h | h <;> subst h <;> simp_all
    all_goals (subst hs; decide)
  · intro k s hk hs
    simp only [cfgBoolVars, List.mem_cons, List.not_mem_nil, or_false] at hk
    rcases hk with h | h | h | h <;> subst h <;> simp_all

/-- Claim C7: decoding a well-formed success response yields a payload
whose reply equals the backend's reply string exactly, with the URL
normalized to absent when the backend sent the empty string (and kept
otherwise); a closed breaker passes the payload through unchanged, and
`InvokeAgent` hands it to its caller unchanged. -/
theorem c7_roundtrip (reply u : String) (b : CBreaker) (now : Int) (ctx : GoContext)
    (hu : u ≠ "") (hb : b.mode = CBMode.closed) :
    (doHTTP (HTTPResult.resp 200 (some ⟨reply, some ""⟩))).1 = Except.ok ⟨reply, none⟩
    ∧ (doHTTP (HTTPResult.resp 200 (some ⟨reply, some u⟩))).1 = Except.ok ⟨reply, some u⟩
    ∧ (doHTTP (HTTPResult.resp 200 (some ⟨reply, none⟩))).1 = Except.ok ⟨reply, none⟩
    ∧ (∀ a, (b.Execute now (Except.ok a)).result = Except.ok a)
    ∧ ((NewInvoker defaultConfig).InvokeAgent now ctx "cita"
        (fun _ => HTTPResult.resp 200 (some ⟨reply, some ""⟩))).result
      = Except.ok ⟨reply, none⟩ := by
  refine ⟨by simp [doHTTP], by simp [doHTTP, hu], by simp [doHTTP], ?_, ?_⟩
  · intro a
    simp [CBreaker.Execute, hb]
  · simp [Invoker.InvokeAgent, NewInvoker, defaultConfig, Config.AgentEnabled,
      Config.AgentURL, agentKeys, lookupCB, doHTTP, CBreaker.Execute, cbInit,
      mapCBResult]

/-- Witness for C7 at a concrete reply, URL and breaker. -/
theorem c7_roundtrip_witness :
    (doHTTP (HTTPResult.resp 200 (some ⟨"hola", some ""⟩))).1 = Except.ok ⟨"hola", none⟩
    ∧ (doHTTP (HTTPResult.resp 200 (some ⟨"hola", some "https://x.pe"⟩))).1
        = Except.ok ⟨"hola", some "https://x.pe"⟩
    ∧ (doHTTP (HTTPResult.resp 200 (some ⟨"hola", none⟩))).1 = Except.ok ⟨"hola", none⟩
    ∧ (cbInit.Execute 0 (Except.ok ⟨"hola", none⟩)).result = Except.ok ⟨"hola", none⟩
    ∧ ((NewInvoker defaultConfig).InvokeAgent 0 ⟨none⟩ "cita"
        (fun _ => HTTPResult.resp 200 (some ⟨"hola", some ""⟩))).result
      = Except.ok ⟨"hola", none⟩ :=
  have h := c7_roundtrip "hola" "https://x.pe" cbInit 0 ⟨none⟩ (by decide) rfl
  ⟨h.1, h.2.1, h.2.2.1, h.2.2.2.1 ⟨"hola", none⟩, h.2.2.2.2⟩

/-- Folding failing calls through a Closed breaker below the
threshold only advances the consecutive-failure counter. -/
theorem applyFailures_from_closed (now : Int) :
    ∀ k j o, j + k < 5 →
      applyFailures now k ⟨CBMode.closed, j, o, 0⟩ = ⟨CBMode.closed, j + k, o, 0⟩ := by
  intro k
  induction k with
  | zero => intro j o h; simp [applyFailures]
  | succ k ih =>
      intro j o h
      have hlt : ¬ (5 ≤ j + 1) := by omega
      have hstep : ((⟨CBMode.closed, j, o, 0⟩ : CBreaker).Execute now
          (Except.error "http do: connection refused")).breaker
          = ⟨CBMode.closed, j + 1, o, 0⟩ := by
        simp [CBreaker.Execute, CBreaker.onFailure, cbReadyToTrip, hlt]
      have hunf : applyFailures now (k + 1) ⟨CBMode.closed, j, o, 0⟩
          = applyFailures now k (((⟨CBMode.closed, j, o, 0⟩ : CBreaker).Execute now
              (Except.error "http do: connection refused")).breaker) := rfl
      rw [hunf, hstep, ih (j + 1) o (by omega)]
      have : j + 1 + k = j + (k + 1) := by omega
      rw [this]

/-- The failing call that brings the counter to the threshold trips
the breaker to Open, stamping the trip time. -/
theorem applyFailures_trip (now : Int) :
    ∀ k j o, j + k = 5 → 1 ≤ k →
      applyFailures now k ⟨CBMode.closed, j, o, 0⟩ = ⟨CBMode.opened, 5, now, 0⟩ := by
  intro k
  induction k with
  | zero => intro j o h h1; omega
  | succ k ih =>
      intro j o h h1
      rcases Nat.eq_zero_or_pos k with hk0 | hkpos
      · subst hk0
        have h5 : 5 ≤ j + 1 := by omega
        have hstep : ((⟨CBMode.closed, j, o, 0⟩ : CBreaker).Execute now
            (Except.error "http do: connection refused")).breaker
            = ⟨CBMode.opened, j + 1, now, 0⟩ := by
          simp [CBreaker.Execute, CBreaker.onFailure, cbReadyToTrip, h5]
        have hunf : applyFailures now 1 ⟨CBMode.closed, j, o, 0⟩
            = ((⟨CBMode.closed, j, o, 0⟩ : CBreaker).Execute now
                (Except.error "http do: connection refused")).breaker := rfl
        rw [hunf, hstep]
        have : j + 1 = 5 := by omega
        rw [this]
      · have hlt : ¬ (5 ≤ j + 1) := by omega
        have hstep : ((⟨CBMode.closed, j, o, 0⟩ : CBreaker).Execute now
            (Except.error "http do: connection refused")).breaker
            = ⟨CBMode.closed, j + 1, o, 0⟩ := by
          simp [CBreaker.Execute, CBreaker.onFailure, cbReadyToTrip, hlt]
        have hunf : applyFailures now (k + 1) ⟨CBMode.closed, j, o, 0⟩
            = applyFailures now k (((⟨CBMode.closed, j, o, 0⟩ : CBreaker).Execute now
                (Except.error "http do: connection refused")).breaker) := rfl
        rw [hunf, hstep, ih (j + 1) o (by omega) hkpos]

/-- Claim C1: every backend starts with a fresh Closed breaker; fewer
than five consecutive failures keep it Closed with the exact count,
the fifth trips it to Open, and while Open with the cool-down not
elapsed every `Execute` rejects immediately with the circuit-open
error, never invokes the guarded HTTP call, and leaves the breaker
unchanged. -/
theorem c1_breaker_threshold_and_open_reject (cfg : Config) (k : Nat) (now t : Int)
    (b : CBreaker) (op : Except String AgentResult)
    (hk : k < 5) (hb : b.mode = CBMode.opened)
    (ht : t < b.openedAt + cbCooldownSec) :
    (applyFailures now k cbInit).mode = CBMode.closed
    ∧ (applyFailures now k cbInit).consecutiveFailures = k
    ∧ (applyFailures now 5 cbInit).mode = CBMode.opened
    ∧ lookupCB (NewInvoker cfg).cbs "venta" = some cbInit
    ∧ lookupCB (NewInvoker cfg).cbs "cita" = some cbInit
    ∧ lookupCB (NewInvoker cfg).cbs "reserva" = some cbInit
    ∧ lookupCB (NewInvoker cfg).cbs "citas_ventas" = some cbInit
    ∧ (b.Execute t op).result = Except.error CBError.circuitOpen
    ∧ (b.Execute t op).opInvoked = false
    ∧ (b.Execute t op).breaker = b := by
  have hcb : cbInit = ⟨CBMode.closed, 0, 0, 0⟩ := rfl
  have hclosed := applyFailures_from_closed now k 0 0 (by omega)
  have htrip := applyFailures_trip now 5 0 0 (by omega) (by omega)
  have hopen : b.Execute t op = ⟨Except.error CBError.circuitOpen, b, false⟩ := by
    unfold CBreaker.Execute
    rw [hb]
    simp [ht]
  rw [hcb]
  refine ⟨?_, ?_, ?_, rfl, rfl, rfl, rfl, ?_, ?_, ?_⟩ <;>
    simp [hclosed, htrip, hopen]

/-- Witness for C1: three failures leave the cita breaker Closed, five
open it, and a breaker opened at time 0 rejects a call at time 10
without invoking it. -/
theorem c1_breaker_threshold_and_open_reject_witness :
    (applyFailures 0 3 cbInit).mode = CBMode.closed
    ∧ (applyFailures 0 3 cbInit).consecutiveFailures = 3
    ∧ (applyFailures 0 5 cbInit).mode = CBMode.opened
    ∧ lookupCB (NewInvoker defaultConfig).cbs "venta" = some cbInit
    ∧ lookupCB (NewInvoker defaultConfig).cbs "cita" = some cbInit
    ∧ lookupCB (NewInvoker defaultConfig).cbs "reserva" = some cbInit
    ∧ lookupCB (NewInvoker defaultConfig).cbs "citas_ventas" = some cbInit
    ∧ ((⟨CBMode.opened, 5, 0, 0⟩ : CBreaker).Execute 10
        (Except.error "http do: connection refused")).result
      = Except.error CBError.circuitOpen
    ∧ ((⟨CBMode.opened, 5, 0, 0⟩ : CBreaker).Execute 10
        (Except.error "http do: connection refused")).opInvoked = false
    ∧ ((⟨CBMode.opened, 5, 0, 0⟩ : CBreaker).Execute 10
        (Except.error "http do: connection refused")).breaker
      = ⟨CBMode.opened, 5, 0, 0⟩ :=
  c1_breaker_threshold_and_open_reject defaultConfig 3 0 10
    ⟨CBMode.opened, 5, 0, 0⟩ (Except.error "http do: connection refused")
    (by decide) rfl (by decide)

/-- On the valid-request path the handler always hands `InvokeAgent`
the derived context and always runs its deferred cancel. -/
theorem ServeHTTP_valid (inv : Invoker) (now : Int) (ctx : GoContext)
    (req : ChatRequest) (net : GoContext → HTTPResult)
    (hmsg : ¬ goTrimSpace req.Message = "")
    (hsid : ¬ req.SessionID < 0)
    (hemp : ¬ req.Config.IdEmpresa ≤ 0) :
    (ServeHTTP inv now ctx "POST" (DecodeOutcome.decoded req) net).ctxPassed
      = some (withTimeout ctx now inv.AgentTimeout)
    ∧ (ServeHTTP inv now ctx "POST" (DecodeOutcome.decoded req) net).cancelCalled = true := by
  unfold ServeHTTP
  rw [if_neg (by simp)]
  dsimp only
  rw [if_neg hmsg, if_neg hsid, if_neg hemp]
  constructor <;> (split <;> rfl)

/-- Claim C4: on the invocation path the handler passes `InvokeAgent`
a derived context firing at `min(caller-deadline, now +
agent-timeout)`, not the caller's raw context; its cancel function
runs on every exit path of the handler that created it; and inside
`InvokeAgent` the guarded HTTP call, when invoked at all, receives
exactly that derived context. -/
theorem c4_derived_deadline (inv : Invoker) (now d : Int) (method : String)
    (req : ChatRequest) (net : GoContext → HTTPResult)
    (hm : method = "POST")
    (hmsg : ¬ goTrimSpace req.Message = "")
    (hsid : ¬ req.SessionID < 0)
    (hemp : ¬ req.Config.IdEmpresa ≤ 0) :
    (ServeHTTP inv now ⟨some d⟩ method (DecodeOutcome.decoded req) net).ctxPassed
      = some ⟨some (min d (now + inv.AgentTimeout))⟩
    ∧ (ServeHTTP inv now ⟨some d⟩ method (DecodeOutcome.decoded req) net).cancelCalled = true
    ∧ (∀ (inv2 : Invoker) (now2 : Int) (ctx2 : GoContext) (m2 : String)
         (dec2 : DecodeOutcome) (net2 : GoContext → HTTPResult),
         (ServeHTTP inv2 now2 ctx2 m2 dec2 net2).ctxPassed ≠ none →
         (ServeHTTP inv2 now2 ctx2 m2 dec2 net2).cancelCalled = true)
    ∧ (∀ (inv2 : Invoker) (now2 : Int) (ctx2 : GoContext) (a2 : String)
         (net2 : GoContext → HTTPResult),
         (inv2.InvokeAgent now2 ctx2 a2 net2).opCtx = none
         ∨ (inv2.InvokeAgent now2 ctx2 a2 net2).opCtx = some ctx2) := by
  subst hm
  have hmain := ServeHTTP_valid inv now ⟨some d⟩ req net hmsg hsid hemp
  refine ⟨?_, hmain.2, ?_, ?_⟩
  · rw [hmain.1]; rfl
  · intro inv2 now2 ctx2 m2 dec2 net2 h
    by_cases hm2 : m2 = "POST"
    · subst hm2
      cases dec2 with
      | tooLarge => simp [ServeHTTP] at h
      | badJSON => simp [ServeHTTP] at h
      | decoded req2 =>
          by_cases h1 : goTrimSpace req2.Message = ""
          · simp [ServeHTTP, h1] at h
          · by_cases h2 : req2.SessionID < 0
            · simp [ServeHTTP, h1, h2] at h
            · by_cases h3 : req2.Config.IdEmpresa ≤ 0
              · simp [ServeHTTP, h1, h2, h3] at h
              · exact (ServeHTTP_valid inv2 now2 ctx2 req2 net2 h1 h2 h3).2
    · simp [ServeHTTP, hm2] at h
  · intro inv2 now2 ctx2 a2 net2
    unfold Invoker.InvokeAgent
    by_cases he : inv2.cfg.AgentEnabled a2 = false
    · simp [he]
    · by_cases hu : inv2.cfg.AgentURL a2 = ""
      · simp [he, hu]
      · simp only [he, hu, if_false, if_neg, ite_false]
        cases hl : lookupCB inv2.cbs a2 with
        | none => simp [hl]
        | some cb =>
            simp only [hl]
            split <;> simp

/-- Witness for C4: a concrete valid request whose derived deadline is
the minimum of the caller deadline 100 and now (0) plus the default
30 s agent timeout. -/
theorem c4_derived_deadline_witness :
    (ServeHTTP (NewInvoker defaultConfig) 0 ⟨some 100⟩ "POST"
        (DecodeOutcome.decoded ⟨"hola", 1, ⟨"ventas", 1⟩⟩)
        (fun _ => HTTPResult.netErr "refused")).ctxPassed
      = some ⟨some (min 100 (0 + (NewInvoker defaultConfig).AgentTimeout))⟩
    ∧ (ServeHTTP (NewInvoker defaultConfig) 0 ⟨some 100⟩ "POST"
        (DecodeOutcome.decoded ⟨"hola", 1, ⟨"ventas", 1⟩⟩)
        (fun _ => HTTPResult.netErr "refused")).cancelCalled = true :=
  have h := c4_derived_deadline (NewInvoker defaultConfig) 0 100 "POST"
    ⟨"hola", 1, ⟨"ventas", 1⟩⟩ (fun _ => HTTPResult.netErr "refused")
    rfl (by decide) (by decide) (by decide)
  ⟨h.1, h.2.1⟩

end Gateway
